import Mathlib

/-!
Shallow embedding of the manim-python-service repository.

The embedding follows the source files:
* `validator.py`  — `validate_code`, `extract_scene_name` and the fixed token tables;
* `executor.py`   — `execute_manim_code` (workspace creation, subprocess run with a
  60-second timeout, stderr noise filtering, artifact search, thumbnail and duration
  probes) and `cleanup_temp_dir`;
* `main.py`       — the synchronous dispatcher `execute_code`, the asynchronous job
  `process_render_job`, `send_webhook` and the `/execute-async` endpoint.

External effects (the renderer subprocess, the filesystem walk, the S3 upload, the
webhook POST) are modelled by explicit environment values describing what the outside
world does during one request; the embedded functions compute the observable outcome
of the Python control flow over such an environment, together with a trace of the
side effects the claims talk about (workspace creation and cleanup, webhook payloads,
the subprocess command line, child-process termination).

Strings are processed as their character lists; Python's regex classes `\s` and `\w`
are modelled by their ASCII parts, and Python's `str.strip` by stripping the ASCII
whitespace characters, which is exact for all inputs appearing in the claims.
-/

namespace ManimService

/-- Initial-segment test: `listLeadMatch n h` is true when the character list `n`
is an initial segment of `h`; building block for Python's substring operator. -/
def listLeadMatch : List Char → List Char → Bool
  | [], _ => true
  | _ :: _, [] => false
  | a :: as, b :: bs => a == b && listLeadMatch as bs

/-- Contiguous-segment test: `listHasSub n h` is true when `n` occurs as a
contiguous segment of `h`. -/
def listHasSub (needle : List Char) : List Char → Bool
  | [] => listLeadMatch needle []
  | c :: t => listLeadMatch needle (c :: t) || listHasSub needle t

/-- Python's substring test `needle in hay`. -/
def strContains (hay needle : String) : Bool :=
  listHasSub needle.data hay.data

/-- The `DANGEROUS_IMPORTS` table (validator.py lines 4-8). -/
def DANGEROUS_IMPORTS : List String :=
  ["os", "sys", "subprocess", "shutil", "pathlib",
   "requests", "urllib", "socket", "pickle",
   "eval", "exec", "compile", "__import__"]

/-- The four textual patterns scanned for one denylisted name
(validator.py lines 47-52). -/
def dangerousPatterns (d : String) : List String :=
  ["import " ++ d,
   "from " ++ d,
   "__import__(\"" ++ d ++ "\")",
   "__import__(\x27" ++ d ++ "\x27)"]

/-- The `dangerous_funcs` table (validator.py line 58). -/
def dangerous_funcs : List String :=
  ["eval(", "exec(", "compile(", "open("]

/-- All tokens the validator scans the raw text for: every import-form pattern of
every denylisted name, plus the direct dangerous-function call tokens. -/
def denylistTokens : List String :=
  (DANGEROUS_IMPORTS.map dangerousPatterns).flatten ++ dangerous_funcs

/-- First denylisted name one of whose patterns occurs in `code`
(validator.py lines 46-55). -/
def findDangerousImport (code : String) : Option String :=
  DANGEROUS_IMPORTS.find? (fun d => (dangerousPatterns d).any (fun p => strContains code p))

/-- First dangerous function token occurring in `code` (validator.py lines 58-61). -/
def findDangerousFunc (code : String) : Option String :=
  dangerous_funcs.find? (fun f => strContains code f)

/-- One position of the regex `\.NAME[^\(]` (validator.py lines 27-32): the literal
`.NAME` at the head of `cs`, followed by at least one character that is not `(`. -/
def accessorBareAt (name : List Char) (cs : List Char) : Bool :=
  listLeadMatch ('.' :: name) cs &&
    (match cs.drop (name.length + 1) with
     | [] => false
     | c :: _ => c != '(')

/-- Search for the regex `\.NAME[^\(]` anywhere in the text, as `re.search` does. -/
def accessorBare (name : List Char) : List Char → Bool
  | [] => false
  | c :: t => accessorBareAt name (c :: t) || accessorBare name t

/-- The `COMMON_SYNTAX_ERRORS` table (validator.py lines 26-33): accessor name and
the error message reported when it occurs without a following parenthesis. -/
def ACCESSOR_MISTAKES : List (String × String) :=
  [("get_center", "Missing parentheses: Use .get_center() instead of .get_center"),
   ("get_top", "Missing parentheses: Use .get_top() instead of .get_top"),
   ("get_bottom", "Missing parentheses: Use .get_bottom() instead of .get_bottom"),
   ("get_left", "Missing parentheses: Use .get_left() instead of .get_left"),
   ("get_right", "Missing parentheses: Use .get_right() instead of .get_right"),
   ("get_corner", "Missing parentheses: Use .get_corner() instead of .get_corner")]

/-- First common-mistake pattern matching `code` (validator.py lines 84-86). -/
def findAccessorMistake (code : String) : Option String :=
  (ACCESSOR_MISTAKES.find? (fun pe => accessorBare pe.1.data code.data)).map (fun pe => pe.2)

/-- The function `validate_code` (validator.py lines 35-88), returning the pair
`(is_valid, error_message)`.  The `PROBLEMATIC_ANIMATIONS` and `LATEX_DEPENDENT`
scans (lines 72-81) only print warnings and never change the verdict, so they do
not appear in the returned value. -/
def validate_code (code : String) : Bool × String :=
  if strContains code "from manim import" = false then
    (false, "Code must start with \x27from manim import *\x27")
  else
    match findDangerousImport code with
    | some d => (false, "Dangerous import detected: " ++ d)
    | none =>
      match findDangerousFunc code with
      | some f => (false, "Dangerous function detected: " ++ f)
      | none =>
        if strContains code "class " = false
            || (strContains code "(Scene)" || strContains code "(ThreeDScene)") = false then
          (false, "Code must contain a Scene or ThreeDScene class")
        else if strContains code "def construct(self):" = false then
          (false, "Scene class must have a construct() method")
        else
          match findAccessorMistake code with
          | some msg => (false, "Common Manim error detected: " ++ msg)
          | none => (true, "")

/-- ASCII part of Python's regex class `\s` and of `str.strip`'s whitespace set. -/
def isPySpace (c : Char) : Bool :=
  c == ' ' || c == '\t' || c == '\n' || c == '\r' || c.toNat == 11 || c.toNat == 12

/-- ASCII part of Python's regex class `\w`. -/
def isWordChar (c : Char) : Bool :=
  c.isAlphanum || c == '_'

/-- Attempt to match the regex `class\s+(\w+)\s*\(BASE\)` at the head of `cs`,
returning the identifier captured by the `(\w+)` group.  Because the character
classes of consecutive atoms are disjoint, maximal munch is exactly the
backtracking semantics of Python's `re`. -/
def matchSceneAt (base : List Char) (cs : List Char) : Option (List Char) :=
  if listLeadMatch ['c', 'l', 'a', 's', 's'] cs then
    let r1 := cs.drop 5
    if (r1.takeWhile isPySpace).isEmpty then none
    else
      let r2 := r1.dropWhile isPySpace
      let ident := r2.takeWhile isWordChar
      if ident.isEmpty then none
      else
        let r3 := (r2.dropWhile isWordChar).dropWhile isPySpace
        if listLeadMatch ('(' :: (base ++ [')'])) r3 then some ident else none
  else none

/-- Left-to-right search for the scene-class pattern, as `re.search` does: try
every start position from the left, returning the capture of the leftmost match. -/
def searchScene (base : List Char) : List Char → Option (List Char)
  | [] => none
  | c :: t =>
    match matchSceneAt base (c :: t) with
    | some ident => some ident
    | none => searchScene base t

/-- The function `extract_scene_name` (validator.py lines 90-105): search for a
`ThreeDScene` declaration first, then for a plain `Scene` declaration, else `none`. -/
def extract_scene_name (code : String) : Option String :=
  match searchScene "ThreeDScene".data code.data with
  | some ident => some (String.mk ident)
  | none =>
    match searchScene "Scene".data code.data with
    | some ident => some (String.mk ident)
    | none => none

/-- What the renderer subprocess run does during one attempt: exceed the
60-second wall clock (`subprocess.TimeoutExpired`), complete with an exit code
and captured stderr text, or raise some other exception during orchestration. -/
inductive SubprocBehavior where
  | timeout
  | completes (returncode : Int) (stderrOut : String)
  | raisesOther (msg : String)
  deriving DecidableEq

/-- Environment of one render attempt: the workspace path handed out by
`tempfile.mkdtemp`, the subprocess behavior, the first `.mp4` file (if any) that
the `os.walk` over `temp_dir/videos/scene` finds, whether the ffmpeg thumbnail
extraction produces its file, and the duration reported by ffprobe. -/
structure RenderEnv where
  tempDir : String
  behavior : SubprocBehavior
  foundVideo : Option String
  thumbSucceeds : Bool
  probedDuration : Float

/-- The dict returned by `execute_manim_code`; keys absent from the Python dict
are `none` here. -/
structure ExecOutcome where
  success : Bool
  video_path : Option String := none
  thumbnail_path : Option String := none
  temp_dir : Option String := none
  duration : Option Float := none
  error : Option String := none

/-- The progress-noise indicator list (executor.py line 76). -/
def noiseIndicators : List String :=
  ["Animation", "%|", "it/s", "█", "▏", "▎", "▍", "▌", "▋", "▊", "▉"]

/-- Python's `str.split` on the newline character, over the character list. -/
def splitOnNl : List Char → List (List Char)
  | [] => [[]]
  | c :: t =>
    if c == '\n' then [] :: splitOnNl t
    else
      match splitOnNl t with
      | [] => [[c]]
      | h :: t2 => (c :: h) :: t2

/-- Python's `str.strip()` on a character list (ASCII whitespace). -/
def pyStripL (cs : List Char) : List Char :=
  ((cs.dropWhile isPySpace).reverse.dropWhile isPySpace).reverse

/-- Python's `str.strip()`. -/
def pyStrip (s : String) : String :=
  String.mk (pyStripL s.data)

/-- A stripped stderr line matching the progress-noise heuristic: it contains one
of the animation/percentage/rate/block-drawing indicators (executor.py line 76). -/
def noiseLine (line : String) : Bool :=
  noiseIndicators.any (fun ind => strContains line ind)

/-- The stderr filtering loop (executor.py lines 68-81): strip each line, drop
blank lines, drop progress-noise lines, drop all-whitespace lines, keep the rest. -/
def filterErrorLines (stderrOut : String) : List String :=
  (splitOnNl stderrOut.data).filterMap (fun l =>
    let line := String.mk (pyStripL l)
    if line = "" then none
    else if noiseLine line then none
    else if line.data.all (fun c => c == ' ' || c == '\r' || c == '\n' || c == '\t') then none
    else some line)

/-- Python's newline `join` on the kept lines, over character lists. -/
def joinNl : List String → List Char
  | [] => []
  | [l] => l.data
  | l :: t => l.data ++ '\n' :: joinNl t

/-- Artifact search and harvesting (executor.py lines 95-124): walk the expected
output subtree for the first `.mp4`; absence is the artifact-not-found failure;
on a found video, derive the thumbnail (non-fatal) and probe the duration, and
return the success dict exposing the workspace path. -/
def artifactSearch (env : RenderEnv) : ExecOutcome :=
  match env.foundVideo with
  | none => { success := false, error := some "Video file not found after rendering" }
  | some vp =>
    { success := true,
      video_path := some vp,
      thumbnail_path := if env.thumbSucceeds then some (env.tempDir ++ "/thumbnail.png") else none,
      temp_dir := some env.tempDir,
      duration := some env.probedDuration }

/-- The `quality_map` dict (executor.py lines 32-36). -/
def quality_map : List (String × String) :=
  [("l", "l"), ("m", "m"), ("h", "h")]

/-- Python's `quality_map.get(quality, 'l')` (executor.py line 37). -/
def qualityFlag (q : String) : String :=
  ((quality_map.find? (fun p => p.1 == q)).map (fun p => p.2)).getD "l"

/-- Observable trace of one `execute_manim_code` call: the returned dict, the
argv handed to `subprocess.run`, and whether no live renderer child remains
afterwards (per the `subprocess.run` contract, on `TimeoutExpired` the child is
killed before the exception propagates; on completion it has exited). -/
structure ExecTrace where
  outcome : ExecOutcome
  command : List String
  childTerminated : Bool

/-- The function `execute_manim_code` (executor.py lines 9-136).  The workspace
is created by `tempfile.mkdtemp` before the `try` block in every call; the
submitted code is written verbatim to `scene.py` inside it; the subprocess runs
with a 60-second timeout; on a non-zero exit the stderr filter decides between
the rendering-failure dict and proceeding to the artifact search;
`TimeoutExpired` yields exactly the timeout dict and any other exception the
execution-failed dict.  No branch of this function deletes the workspace. -/
def execute_manim_code (_code scene_name quality : String) (env : RenderEnv) : ExecTrace :=
  let code_file := env.tempDir ++ "/scene.py"
  let command := ["manim", "-q" ++ qualityFlag quality, "--format=mp4",
                  "--media_dir", env.tempDir, code_file, scene_name]
  match env.behavior with
  | .timeout =>
    { outcome := { success := false, error := some "Rendering timeout (max 60 seconds)" },
      command := command,
      childTerminated := true }
  | .raisesOther msg =>
    { outcome := { success := false, error := some ("Execution failed: " ++ msg) },
      command := command,
      childTerminated := true }
  | .completes rc stderrOut =>
    if rc != 0 then
      match filterErrorLines stderrOut with
      | [] => { outcome := artifactSearch env, command := command, childTerminated := true }
      | e :: es =>
        { outcome :=
            { success := false,
              error := some ("Manim rendering failed: "
                ++ String.mk ((joinNl (e :: es)).take 500)) },
          command := command,
          childTerminated := true }
    else
      { outcome := artifactSearch env, command := command, childTerminated := true }

/-- An outcome carrying the rendering-failure classification built at
executor.py line 89. -/
def isRenderingFailure (o : ExecOutcome) : Bool :=
  match o.error with
  | some e => listLeadMatch "Manim rendering failed: ".data e.data
  | none => false

/-- Behavior of `S3Uploader.upload_video_and_thumbnail` during one request:
either it raises, or it returns the pair of video URL and optional thumbnail URL. -/
inductive UploadBehavior where
  | raises (msg : String)
  | uploads (video_url : String) (thumbnail_url : Option String)
  deriving DecidableEq

/-- The synchronous HTTP result of `/execute`: an `HTTPException` with a status
code and detail, or the success payload. -/
inductive SyncResponse where
  | httpError (status : Nat) (detail : String)
  | rendered (video_url : String) (thumbnail_url : Option String) (duration : Float)

/-- Observable trace of one synchronous request: the response, whether the
render workspace was created (`tempfile.mkdtemp` runs at executor entry), and
whether `cleanup_temp_dir` was invoked on it. -/
structure SyncTrace where
  response : SyncResponse
  workspaceCreated : Bool
  cleanupCalled : Bool

/-- The synchronous dispatcher `execute_code` (main.py lines 48-101): validate,
extract, render, upload, with `cleanup_temp_dir` only in the `finally` block
around the upload — a render failure raises before that block is entered, so no
cleanup is invoked on those paths. -/
def execute_code (code quality : String) (renv : RenderEnv) (uenv : UploadBehavior) : SyncTrace :=
  if (validate_code code).1 = false then
    { response := .httpError 400 (validate_code code).2,
      workspaceCreated := false, cleanupCalled := false }
  else
    match extract_scene_name code with
    | none =>
      { response := .httpError 400 "Scene class not found",
        workspaceCreated := false, cleanupCalled := false }
    | some scene_name =>
      let result := (execute_manim_code code scene_name quality renv).outcome
      if result.success = false then
        { response := .httpError 500 (result.error.getD ""),
          workspaceCreated := true, cleanupCalled := false }
      else
        match uenv with
        | .raises msg =>
          { response := .httpError 500 ("Upload failed: " ++ msg),
            workspaceCreated := true, cleanupCalled := true }
        | .uploads vu tu =>
          { response := .rendered vu tu (result.duration.getD 0.0),
            workspaceCreated := true, cleanupCalled := true }

/-- The workspace is still on disk once the synchronous sequence has completed:
it was created and `cleanup_temp_dir` was never invoked (`shutil.rmtree` is
assumed to succeed whenever it is invoked). -/
def workspaceRemains (t : SyncTrace) : Bool :=
  t.workspaceCreated && !t.cleanupCalled

/-- The uniform webhook payload of the asynchronous mode
(main.py lines 122-129). -/
structure WebhookPayload where
  animation_id : String
  success : Bool
  video_url : Option String
  thumbnail_url : Option String
  duration : Option Float
  error : Option String

/-- The `result_data` dict as initialised at main.py lines 122-129. -/
def basePayload (animation_id : String) : WebhookPayload :=
  { animation_id := animation_id, success := false, video_url := none,
    thumbnail_url := none, duration := none, error := none }

/-- Observable trace of one asynchronous render job: the payloads handed to
`send_webhook` in order (each such call issues one POST to the caller-supplied
webhook URL; delivery itself is best-effort and failures are swallowed inside
`send_webhook`), plus the workspace flags as in the synchronous trace. -/
structure AsyncTrace where
  webhooks : List WebhookPayload
  workspaceCreated : Bool
  cleanupCalled : Bool

/-- The asynchronous job `process_render_job` (main.py lines 114-190).  The
three early-failure branches send their webhook and `return`, skipping the
final send at line 190; the upload branches fall through the inner
`try/except/finally` (which runs `cleanup_temp_dir`) to the final send.
`outerExc` models an unexpected exception raised inside the outer `try` before
validation, caught by the handler at line 185. -/
def process_render_job (code quality animation_id : String)
    (renv : RenderEnv) (uenv : UploadBehavior) (outerExc : Option String) : AsyncTrace :=
  match outerExc with
  | some e =>
    { webhooks := [{ basePayload animation_id with error := some e }],
      workspaceCreated := false, cleanupCalled := false }
  | none =>
    if (validate_code code).1 = false then
      { webhooks := [{ basePayload animation_id with error := some (validate_code code).2 }],
        workspaceCreated := false, cleanupCalled := false }
    else
      match extract_scene_name code with
      | none =>
        { webhooks := [{ basePayload animation_id with error := some "Scene class not found" }],
          workspaceCreated := false, cleanupCalled := false }
      | some scene_name =>
        let result := (execute_manim_code code scene_name quality renv).outcome
        if result.success = false then
          { webhooks := [{ basePayload animation_id with error := result.error }],
            workspaceCreated := true, cleanupCalled := false }
        else
          match uenv with
          | .raises msg =>
            { webhooks := [{ basePayload animation_id with
                error := some ("Upload failed: " ++ msg) }],
              workspaceCreated := true, cleanupCalled := true }
          | .uploads vu tu =>
            { webhooks := [{ basePayload animation_id with
                success := true, video_url := some vu, thumbnail_url := tu,
                duration := some (result.duration.getD 0.0) }],
              workspaceCreated := true, cleanupCalled := true }

/-- The request body of `/execute-async` (main.py lines 105-109). -/
structure AsyncRenderRequest where
  code : String
  quality : String
  animation_id : String
  webhook_url : String

/-- The immediate response of `/execute-async` (main.py lines 226-230). -/
structure AsyncAcceptResponse where
  success : Bool
  message : String
  animation_id : String
  deriving DecidableEq

/-- The job queued by `background_tasks.add_task` (main.py lines 218-224):
the four arguments passed to `process_render_job`, taken verbatim from the
request with no validation. -/
structure QueuedJob where
  code : String
  quality : String
  animation_id : String
  webhook_url : String
  deriving DecidableEq

/-- The endpoint `execute_code_async` (main.py lines 211-230): queue the job and
immediately return the acceptance payload; nothing inspects `request.code`
before the response. -/
def execute_code_async (request : AsyncRenderRequest) : AsyncAcceptResponse × QueuedJob :=
  ({ success := true, message := "Render job started", animation_id := request.animation_id },
   { code := request.code, quality := request.quality,
     animation_id := request.animation_id, webhook_url := request.webhook_url })

/-- A script accepted by the validator with a well-formed plain scene class;
used as a concrete input below. -/
def goodCode : String :=
  "from manim import *\nclass Demo(Scene):\n    def construct(self):\n        pass\n"

/-- A script that passes every validator check (it contains the substrings
`class ` and `(Scene)`, the latter only inside a string literal) but contains no
declaration matching either scene-class regex. -/
def validatedNoSceneDecl : String :=
  "from manim import *\nclass \ns = \x27(Scene)\x27\ndef construct(self):\n    return 1\n"

/-- A render environment in which the renderer subprocess exceeds the
60-second timeout. -/
def timeoutEnv : RenderEnv :=
  { tempDir := "/tmp/manim_t", behavior := .timeout, foundVideo := none,
    thumbSucceeds := false, probedDuration := 0.0 }

/-- A stderr transcript made only of progress-bar noise and blank lines. -/
def noiseStderr : String :=
  "  5%|▌         | 1/20 [00:01<00:19,  1.05it/s]\n\nAnimation 0: Partial movie file written\n"

/-- A render environment whose subprocess exits 1 with only noise on stderr and
whose output walk finds a video file. -/
def noiseEnv : RenderEnv :=
  { tempDir := "/tmp/manim_x", behavior := .completes 1 noiseStderr,
    foundVideo := some "/tmp/manim_x/videos/scene/480p15/Demo.mp4",
    thumbSucceeds := true, probedDuration := 2.0 }

/-- A script with a plain scene declaration before a 3D scene declaration. -/
def bothScenesCode : String :=
  "from manim import *\nclass A(Scene):\n    pass\nclass B(ThreeDScene):\n    pass\n"

/-- An async request whose code fails validation. -/
def badReq : AsyncRenderRequest :=
  { code := "x = 1", quality := "l", animation_id := "abc123", webhook_url := "https://cb" }

/-- One occurrence of a scene-class declaration somewhere in the text implies the
left-to-right search succeeds. -/
theorem searchScene_isSome_of_matchAt (base : List Char) (cs : List Char) (i : Nat)
    (h : (matchSceneAt base (cs.drop i)).isSome = true) :
    (searchScene base cs).isSome = true := by
  induction cs generalizing i with
  | nil =>
    rw [List.drop_nil] at h
    simp [matchSceneAt, listLeadMatch] at h
  | cons c t ih =>
    cases i with
    | zero =>
      rw [List.drop_zero] at h
      unfold searchScene
      cases hm : matchSceneAt base (c :: t) with
      | some ident => simp
      | none => rw [hm] at h; simp at h
    | succ j =>
      rw [List.drop_succ_cons] at h
      have hs := ih j h
      unfold searchScene
      cases hm : matchSceneAt base (c :: t) with
      | some ident => simp
      | none => simpa using hs

/-- C5: for every script containing both a 3D-capable scene declaration and a
plain scene declaration anywhere in the text, `extract_scene_name` returns the
first identifier captured by the `ThreeDScene` pattern, regardless of the order
of the two declarations. -/
theorem extract_prefers_threeD (code : String)
    (h3 : ∃ i, (matchSceneAt "ThreeDScene".data (code.data.drop i)).isSome = true)
    (hS : ∃ j, (matchSceneAt "Scene".data (code.data.drop j)).isSome = true) :
    ∃ ident, searchScene "ThreeDScene".data code.data = some ident ∧
      extract_scene_name code = some (String.mk ident) := by
  obtain ⟨i, hi⟩ := h3
  obtain ⟨j, hj⟩ := hS
  have hs := searchScene_isSome_of_matchAt "ThreeDScene".data code.data i hi
  obtain ⟨ident, hid⟩ := Option.isSome_iff_exists.mp hs
  refine ⟨ident, hid, ?_⟩
  unfold extract_scene_name
  rw [hid]

/-- C5 witness at a script whose plain scene declaration precedes its 3D one. -/
theorem extract_prefers_threeD_witness :
    (matchSceneAt "ThreeDScene".data (bothScenesCode.data.drop 45)).isSome = true ∧
    (matchSceneAt "Scene".data (bothScenesCode.data.drop 20)).isSome = true ∧
    ∃ ident, searchScene "ThreeDScene".data bothScenesCode.data = some ident ∧
      extract_scene_name bothScenesCode = some (String.mk ident) :=
  ⟨by decide, by decide,
   extract_prefers_threeD bothScenesCode ⟨45, by decide⟩ ⟨20, by decide⟩⟩

/-- C6 counterexample: a concrete script that `validate_code` accepts (its
substring checks for `class ` and `(Scene)` are satisfied separately) while
`extract_scene_name` returns `none`. -/
theorem validated_but_extraction_absent :
    (validate_code validatedNoSceneDecl).1 = true ∧
      extract_scene_name validatedNoSceneDecl = none := by
  constructor
  · decide
  · decide

/-- C6 amended: a well-formed scene-class declaration (the literal `class`,
whitespace, an identifier, optional whitespace, then `(Scene)` or
`(ThreeDScene)`) anywhere in the script guarantees that `extract_scene_name`
does not return `none`; the substring checks of `validate_code` alone do not. -/
theorem wellformed_scene_decl_extracts (code : String)
    (h : ∃ i, (matchSceneAt "Scene".data (code.data.drop i)).isSome = true ∨
              (matchSceneAt "ThreeDScene".data (code.data.drop i)).isSome = true) :
    extract_scene_name code ≠ none := by
  obtain ⟨i, hi | hi⟩ := h
  · have hs := searchScene_isSome_of_matchAt "Scene".data code.data i hi
    unfold extract_scene_name
    cases h3 : searchScene "ThreeDScene".data code.data with
    | some ident => simp
    | none =>
      obtain ⟨ident, hid⟩ := Option.isSome_iff_exists.mp hs
      rw [hid]
      simp
  · have hs := searchScene_isSome_of_matchAt "ThreeDScene".data code.data i hi
    obtain ⟨ident, hid⟩ := Option.isSome_iff_exists.mp hs
    unfold extract_scene_name
    rw [hid]
    simp

/-- C6 amended witness at a script with a well-formed plain scene declaration. -/
theorem wellformed_scene_decl_extracts_witness :
    (matchSceneAt "Scene".data (goodCode.data.drop 20)).isSome = true ∧
      extract_scene_name goodCode ≠ none :=
  ⟨by decide, wellformed_scene_decl_extracts goodCode ⟨20, Or.inl (by decide)⟩⟩

/-- C3: every script missing the wildcard-import marker `from manim import` is
rejected by `validate_code`, and the rejection reason mentions that marker. -/
theorem validate_rejects_without_manim_marker (code : String)
    (h : strContains code "from manim import" = false) :
    (validate_code code).1 = false ∧
      strContains (validate_code code).2 "from manim import" = true := by
  unfold validate_code
  rw [h, if_pos rfl]
  exact ⟨rfl, by decide⟩

/-- C3 witness at a script with no import at all. -/
theorem validate_rejects_without_manim_marker_witness :
    strContains "x = 1" "from manim import" = false ∧
      (validate_code "x = 1").1 = false ∧
      strContains (validate_code "x = 1").2 "from manim import" = true :=
  ⟨by decide,
   validate_rejects_without_manim_marker "x = 1" (by decide)⟩

/-- C4: every script containing any of the denylisted tokens — the import-form
patterns of the denylisted names or the dangerous direct-call tokens — as a
substring anywhere in the text is rejected by `validate_code`. -/
theorem validate_rejects_denylisted_token (code t : String)
    (ht : t ∈ denylistTokens) (hc : strContains code t = true) :
    (validate_code code).1 = false := by
  unfold validate_code
  by_cases hm : strContains code "from manim import" = false
  · rw [hm, if_pos rfl]
  · rw [if_neg hm]
    have ht' : t ∈ (DANGEROUS_IMPORTS.map dangerousPatterns).flatten ++ dangerous_funcs := ht
    rcases List.mem_append.mp ht' with himp | hfun
    · obtain ⟨l, hl, htl⟩ := List.mem_flatten.mp himp
      obtain ⟨d, hd, rfl⟩ := List.mem_map.mp hl
      have hpred : (dangerousPatterns d).any (fun p => strContains code p) = true :=
        List.any_eq_true.mpr ⟨t, htl, hc⟩
      have hfind : (findDangerousImport code).isSome = true :=
        List.find?_isSome.mpr ⟨d, hd, hpred⟩
      obtain ⟨d0, hd0⟩ := Option.isSome_iff_exists.mp hfind
      rw [hd0]
    · cases hfi : findDangerousImport code with
      | some d => rfl
      | none =>
        have hfind : (findDangerousFunc code).isSome = true :=
          List.find?_isSome.mpr ⟨t, hfun, hc⟩
        obtain ⟨f0, hf0⟩ := Option.isSome_iff_exists.mp hfind
        rw [hf0]

/-- C4 witness: a script containing the token `import os`. -/
theorem validate_rejects_denylisted_token_witness :
    ("import os" : String) ∈ denylistTokens ∧
      strContains "import os" "import os" = true ∧
      (validate_code "import os").1 = false :=
  ⟨by decide, by decide,
   validate_rejects_denylisted_token "import os" "import os" (by decide) (by decide)⟩

/-- If every stderr line strips to blank or to a progress-noise line, the
filtering loop keeps nothing. -/
theorem filterErrorLines_eq_nil (stderrOut : String)
    (h : ∀ l ∈ splitOnNl stderrOut.data,
      pyStripL l = [] ∨ noiseLine (String.mk (pyStripL l)) = true) :
    filterErrorLines stderrOut = [] := by
  unfold filterErrorLines
  rw [List.filterMap_eq_nil_iff]
  intro l hl
  rcases h l hl with h1 | h2
  · simp [h1]
  · by_cases h0 : pyStripL l = []
    · simp [h0]
    · have h0' : ¬ (String.mk (pyStripL l) = "") := by
        intro he
        exact h0 (congrArg String.data he)
      simp [h0', h2]

/-- The artifact-search continuation never produces the rendering-failure
classification: its only failure message is the artifact-not-found one. -/
theorem artifactSearch_not_renderFailure (env : RenderEnv) :
    isRenderingFailure (artifactSearch env) = false := by
  unfold artifactSearch
  cases env.foundVideo with
  | none => rfl
  | some vp => rfl

/-- C2: whenever the renderer subprocess exits non-zero but every captured
stderr line is blank or matches the progress-noise heuristic, the supervisor
does not classify the run as a rendering failure and instead proceeds to the
artifact search. -/
theorem nonzero_exit_only_noise_proceeds (code scene_name quality : String)
    (env : RenderEnv) (rc : Int) (se : String)
    (hb : env.behavior = .completes rc se) (hrc : rc ≠ 0)
    (h : ∀ l ∈ splitOnNl se.data,
      pyStripL l = [] ∨ noiseLine (String.mk (pyStripL l)) = true) :
    (execute_manim_code code scene_name quality env).outcome = artifactSearch env ∧
      isRenderingFailure (execute_manim_code code scene_name quality env).outcome = false := by
  have hfe := filterErrorLines_eq_nil se h
  have hne : (rc != 0) = true := bne_iff_ne.mpr hrc
  have key : (execute_manim_code code scene_name quality env).outcome = artifactSearch env := by
    simp only [execute_manim_code, hb, hne, hfe, eq_self_iff_true, if_true]
  exact ⟨key, key ▸ artifactSearch_not_renderFailure env⟩

/-- C2 witness: exit code 1 with progress-bar-only stderr. -/
theorem nonzero_exit_only_noise_proceeds_witness :
    noiseEnv.behavior = .completes 1 noiseStderr ∧
    (1 : Int) ≠ 0 ∧
    (execute_manim_code goodCode "Demo" "l" noiseEnv).outcome = artifactSearch noiseEnv ∧
      isRenderingFailure (execute_manim_code goodCode "Demo" "l" noiseEnv).outcome = false :=
  ⟨rfl, by decide,
   nonzero_exit_only_noise_proceeds goodCode "Demo" "l" noiseEnv 1 noiseStderr rfl
     (by decide) (by decide)⟩

/-- C7: whenever the renderer subprocess exceeds the 60-second wall-clock
timeout, the outcome is exactly the timeout-failure dict — success false with
the timeout error message and no other field set — and no live renderer child
remains. -/
theorem timeout_gives_exact_timeout_outcome (code scene_name quality : String)
    (env : RenderEnv) (h : env.behavior = .timeout) :
    (execute_manim_code code scene_name quality env).outcome =
      { success := false, error := some "Rendering timeout (max 60 seconds)" } ∧
      (execute_manim_code code scene_name quality env).childTerminated = true := by
  unfold execute_manim_code
  rw [h]
  exact ⟨rfl, rfl⟩

/-- C7 witness at the timeout environment. -/
theorem timeout_gives_exact_timeout_outcome_witness :
    timeoutEnv.behavior = SubprocBehavior.timeout ∧
    ((execute_manim_code goodCode "Demo" "l" timeoutEnv).outcome =
      { success := false, error := some "Rendering timeout (max 60 seconds)" } ∧
      (execute_manim_code goodCode "Demo" "l" timeoutEnv).childTerminated = true) :=
  ⟨rfl, timeout_gives_exact_timeout_outcome goodCode "Demo" "l" timeoutEnv rfl⟩

/-- C9: a quality string other than the three recognized tiers silently maps to
the low-quality preset and the render proceeds exactly as it would for low
quality. -/
theorem unknown_quality_maps_to_low (quality : String)
    (h1 : quality ≠ "l") (h2 : quality ≠ "m") (h3 : quality ≠ "h") :
    qualityFlag quality = "l" ∧
    ∀ (code scene_name : String) (env : RenderEnv),
      execute_manim_code code scene_name quality env =
        execute_manim_code code scene_name "l" env := by
  have e1 : (("l" : String) == quality) = false := beq_eq_false_iff_ne.mpr (Ne.symm h1)
  have e2 : (("m" : String) == quality) = false := beq_eq_false_iff_ne.mpr (Ne.symm h2)
  have e3 : (("h" : String) == quality) = false := beq_eq_false_iff_ne.mpr (Ne.symm h3)
  have hq : qualityFlag quality = "l" := by
    simp [qualityFlag, quality_map, List.find?, e1, e2, e3]
  refine ⟨hq, ?_⟩
  intro code scene_name env
  unfold execute_manim_code
  rw [hq]
  rfl

/-- C9 witness at the unrecognized quality string `x`. -/
theorem unknown_quality_maps_to_low_witness :
    (("x" : String) ≠ "l" ∧ ("x" : String) ≠ "m" ∧ ("x" : String) ≠ "h") ∧
    (qualityFlag "x" = "l" ∧
      ∀ (code scene_name : String) (env : RenderEnv),
        execute_manim_code code scene_name "x" env =
          execute_manim_code code scene_name "l" env) :=
  ⟨⟨by decide, by decide, by decide⟩,
   unknown_quality_maps_to_low "x" (by decide) (by decide) (by decide)⟩

/-- C8: on every exit path of the asynchronous job — unexpected exception,
validation failure, extraction failure, render failure, upload failure and
success — exactly one payload is handed to `send_webhook`, and it carries the
caller's `animation_id` in the uniform payload shape. -/
theorem async_job_sends_exactly_one_webhook
    (code quality animation_id : String) (renv : RenderEnv) (uenv : UploadBehavior)
    (outerExc : Option String) :
    ∃ w, (process_render_job code quality animation_id renv uenv outerExc).webhooks = [w] ∧
      w.animation_id = animation_id := by
  unfold process_render_job
  dsimp only
  repeat' split
  all_goals exact ⟨_, rfl, rfl⟩

/-- C10: the asynchronous endpoint's immediate response is always the
acceptance payload echoing the submitted `animation_id`, with the unvalidated
request fields queued as the background job; when the code would fail
validation, that failure is reported only through the single webhook of the
queued job. -/
theorem async_endpoint_always_accepts (request : AsyncRenderRequest) :
    execute_code_async request =
      ({ success := true, message := "Render job started",
         animation_id := request.animation_id },
       { code := request.code, quality := request.quality,
         animation_id := request.animation_id, webhook_url := request.webhook_url }) ∧
    ((validate_code request.code).1 = false →
      ∀ (renv : RenderEnv) (uenv : UploadBehavior),
        (process_render_job request.code request.quality request.animation_id
            renv uenv none).webhooks =
          [{ basePayload request.animation_id with
              error := some (validate_code request.code).2 }]) := by
  constructor
  · rfl
  · intro h renv uenv
    unfold process_render_job
    rw [if_pos h]

/-- C10 witness at a request whose code fails validation. -/
theorem async_endpoint_always_accepts_witness :
    (execute_code_async badReq =
      ({ success := true, message := "Render job started",
         animation_id := badReq.animation_id },
       { code := badReq.code, quality := badReq.quality,
         animation_id := badReq.animation_id, webhook_url := badReq.webhook_url })) ∧
    (validate_code badReq.code).1 = false ∧
    (process_render_job badReq.code badReq.quality badReq.animation_id
        timeoutEnv (UploadBehavior.uploads "u" none) none).webhooks =
      [{ basePayload badReq.animation_id with
          error := some (validate_code badReq.code).2 }] :=
  ⟨(async_endpoint_always_accepts badReq).1, by decide,
   (async_endpoint_always_accepts badReq).2 (by decide) timeoutEnv
     (UploadBehavior.uploads "u" none)⟩

/-- C1: the claimed cleanup invariant fails on the code.  On the render-timeout
path the executor returns early without deleting the workspace and without
exposing `temp_dir`, and both dispatchers raise or send the webhook without
invoking `cleanup_temp_dir`, so the workspace directory is still on disk after
the sequence completes, in the synchronous and in the asynchronous mode. -/
theorem workspace_leaked_on_render_failure :
    workspaceRemains
        (execute_code goodCode "l" timeoutEnv (UploadBehavior.uploads "u" none)) = true ∧
    (process_render_job goodCode "l" "a1" timeoutEnv
        (UploadBehavior.uploads "u" none) none).workspaceCreated = true ∧
    (process_render_job goodCode "l" "a1" timeoutEnv
        (UploadBehavior.uploads "u" none) none).cleanupCalled = false := by
  refine ⟨?_, ?_, ?_⟩ <;> rfl

end ManimService
